import Mathlib

/-!
Verification of the Pulumi Keycloak realm provider
(`provider/pkg/provider/realm.go`).

Shallow embedding conventions:
* Go `nil`-able pointer fields become `Option`.
* The Go `map[string]string` becomes an association list (`StrMap`) whose
  insertion overwrites an existing binding and whose lookup takes the first
  binding of a key; the provider only ever inserts pairwise-distinct keys.
* Go `int` is 64-bit two's complement; its wraparound arithmetic is made
  explicit via `int64Wrap`.
* Remote I/O (the gocloak admin client) is modelled by an oracle
  environment `RemoteEnv` fixing each endpoint's response, and every
  lifecycle operation additionally returns the list of remote calls it
  issued, in order.
* A Go runtime panic (nil-pointer dereference) is modelled by the
  `OpResult.panicked` outcome (`none` in the pure projection).
-/

/-- Go `map[string]string` as an association list. -/
abbrev StrMap := List (String × String)

/-- Go map lookup: `v, ok := m[k]`. -/
def StrMap.find? : StrMap → String → Option String
  | [], _ => none
  | (k, v) :: rest, key => if k = key then some v else StrMap.find? rest key

/-- Go map insertion `m[k] = v`: overwrite the binding if the key is
present, otherwise add it. -/
def StrMap.insert (m : StrMap) (k v : String) : StrMap :=
  if (StrMap.find? m k).isSome then
    m.map (fun p => if p.1 = k then (k, v) else p)
  else
    m ++ [(k, v)]

/-- `SmtpServerConfig` (realm.go lines 48-57): the provider-side typed SMTP
record; every field is an optional pointer in Go. -/
structure SmtpServerConfig where
  host : Option String
  port : Option Int
  «from» : Option String
  fromName : Option String
  startTls : Option Bool
  auth : Option Bool
  username : Option String
  password : Option String
  deriving DecidableEq

/-- `RealmArgs` (realm.go lines 18-45): the desired managed-field inputs. -/
structure RealmArgs where
  name : String
  enabled : Option Bool
  displayName : Option String
  displayNameHtml : Option String
  loginTheme : Option String
  accountTheme : Option String
  adminTheme : Option String
  emailTheme : Option String
  smtpServer : Option SmtpServerConfig
  deriving DecidableEq

/-- `RealmState` (realm.go lines 60-90): the reported output state. -/
structure RealmState where
  id : String
  name : String
  enabled : Option Bool
  displayName : Option String
  displayNameHtml : Option String
  loginTheme : Option String
  accountTheme : Option String
  adminTheme : Option String
  emailTheme : Option String
  smtpServer : Option SmtpServerConfig
  deriving DecidableEq

/-- The remote `gocloak.RealmRepresentation` restricted to the fields this
provider reads or writes, plus representative unmanaged attributes
(`sslRequired`, `registrationAllowed`, `accessTokenLifespan`,
`passwordPolicy`) and an open-ended remainder bag `otherAttributes`
standing for the dozens of further attributes the Go struct copy
`updateRealm := *currentRealm` carries along untouched. -/
structure RealmRepresentation where
  realm : Option String
  enabled : Option Bool
  displayName : Option String
  displayNameHTML : Option String
  loginTheme : Option String
  accountTheme : Option String
  adminTheme : Option String
  emailTheme : Option String
  smtpServer : Option StrMap
  sslRequired : Option String
  registrationAllowed : Option Bool
  accessTokenLifespan : Option Int
  passwordPolicy : Option String
  otherAttributes : List (String × String)
  deriving DecidableEq

/-- The gocloak zero value `gocloak.RealmRepresentation{}`. -/
def emptyRealmRepresentation : RealmRepresentation :=
  { realm := none, enabled := none, displayName := none, displayNameHTML := none,
    loginTheme := none, accountTheme := none, adminTheme := none, emailTheme := none,
    smtpServer := none, sslRequired := none, registrationAllowed := none,
    accessTokenLifespan := none, passwordPolicy := none, otherAttributes := [] }

/-- `managedFields` (realm.go lines 93-96): the provider's allow-list. -/
def managedFields : List String :=
  ["realm", "enabled", "displayName", "displayNameHtml",
   "loginTheme", "accountTheme", "adminTheme", "emailTheme", "smtpServer"]

/-- 64-bit two's-complement wraparound of a mathematical integer: the value
a Go `int` holds after an overflowing operation. -/
def int64Wrap (n : Int) : Int := (n + 2^63) % 2^64 - 2^63

/-- Loop body of `parseInt` (realm.go lines 550-555): reject a non-digit
rune, otherwise accumulate `result*10 + digit` in Go `int` arithmetic. -/
def parseIntLoop : List Char → Int → Option Int
  | [], result => some result
  | char :: rest, result =>
    if char < '0' ∨ char > '9' then none
    else parseIntLoop rest (int64Wrap (result * 10 + ((char.toNat - '0'.toNat : Nat) : Int)))

/-- `parseInt` (realm.go lines 543-557). -/
def parseInt (s : String) : Option Int :=
  if s = "" then none
  else parseIntLoop s.data 0

/-- Decimal digit characters of `n`, most significant first. -/
def decimalDigits (n : Nat) : List Char :=
  if _h : n < 10 then [Char.ofNat (n % 10 + 48)]
  else decimalDigits (n / 10) ++ [Char.ofNat (n % 10 + 48)]
termination_by n
decreasing_by exact Nat.div_lt_self (by omega) (by omega)

/-- Model of Go `fmt.Sprintf("%d", n)` on a 64-bit `int`: the decimal
representation, with a leading minus sign for negative values. -/
def sprintfInt (n : Int) : String :=
  if n < 0 then String.mk ('-' :: decimalDigits (-n).toNat)
  else String.mk (decimalDigits n.toNat)

/-- The Go idiom `if p != nil { result[key] = render(*p) }` used for every
optional SMTP entry in `convertSmtpConfig`. -/
def putIfPresent {α : Type} (result : StrMap) (key : String) (render : α → String) :
    Option α → StrMap
  | some v => StrMap.insert result key (render v)
  | none => result

/-- `convertSmtpConfig` (realm.go lines 450-494) on a non-nil argument
(the only way it is called; the Go `nil` guard is the `Option` match at
each call site).  Each nil-guarded insertion is a `putIfPresent`; the
`starttls` entry renders the boolean as `"true"`/`"false"`; the `auth`
block inserts `"auth"` and, only for a present-and-true flag, the
credentials. -/
def convertSmtpConfig (smtp : SmtpServerConfig) : StrMap :=
  let result : StrMap := []
  let result := putIfPresent result "host" (fun h => h) smtp.host
  let result := putIfPresent result "port" (fun p => sprintfInt p) smtp.port
  let result := putIfPresent result "from" (fun f => f) smtp.«from»
  let result := putIfPresent result "fromDisplayName" (fun f => f) smtp.fromName
  let result := putIfPresent result "starttls" (fun t => if t then "true" else "false")
    smtp.startTls
  match smtp.auth with
  | some true =>
      let result := StrMap.insert result "auth" "true"
      let result := putIfPresent result "user" (fun u => u) smtp.username
      putIfPresent result "password" (fun p => p) smtp.password
  | _ => StrMap.insert result "auth" "false"

/-- `convertFromKeycloakSmtp` (realm.go lines 496-541).  The Go code
assigns each field of a zero-valued struct at most once under an
`if v, ok := m[key]; ok` guard, so the struct is given directly field by
field: a missing key leaves the field absent; `port` additionally runs
`parseInt` and keeps the field absent on a parse failure; `user` and
`password` are read only when the `auth` entry decodes to true. -/
def convertFromKeycloakSmtp (keycloakSmtp : StrMap) : Option SmtpServerConfig :=
  if keycloakSmtp.length = 0 then none
  else
    some
      { host := StrMap.find? keycloakSmtp "host"
        port :=
          match StrMap.find? keycloakSmtp "port" with
          | some port => parseInt port
          | none => none
        «from» := StrMap.find? keycloakSmtp "from"
        fromName := StrMap.find? keycloakSmtp "fromDisplayName"
        startTls :=
          match StrMap.find? keycloakSmtp "starttls" with
          | some starttls => some (starttls = "true")
          | none => none
        auth :=
          match StrMap.find? keycloakSmtp "auth" with
          | some auth => some (auth = "true")
          | none => none
        username :=
          match StrMap.find? keycloakSmtp "auth" with
          | some auth =>
              if auth = "true" then StrMap.find? keycloakSmtp "user" else none
          | none => none
        password :=
          match StrMap.find? keycloakSmtp "auth" with
          | some auth =>
              if auth = "true" then StrMap.find? keycloakSmtp "password" else none
          | none => none }

/-- The payload construction inside `updateManagedFields` (realm.go lines
338-373): `updateRealm := *currentRealm` copies the whole snapshot, then
each managed field is overwritten exactly when present in `args`, so the
payload is the snapshot with each managed attribute conditionally
replaced and every other attribute untouched. -/
def overlayManagedFields (args : RealmArgs) (currentRealm : RealmRepresentation) :
    RealmRepresentation :=
  { currentRealm with
    enabled :=
      match args.enabled with
      | some _ => args.enabled
      | none => currentRealm.enabled
    displayName :=
      match args.displayName with
      | some _ => args.displayName
      | none => currentRealm.displayName
    displayNameHTML :=
      match args.displayNameHtml with
      | some _ => args.displayNameHtml
      | none => currentRealm.displayNameHTML
    loginTheme :=
      match args.loginTheme with
      | some _ => args.loginTheme
      | none => currentRealm.loginTheme
    accountTheme :=
      match args.accountTheme with
      | some _ => args.accountTheme
      | none => currentRealm.accountTheme
    adminTheme :=
      match args.adminTheme with
      | some _ => args.adminTheme
      | none => currentRealm.adminTheme
    emailTheme :=
      match args.emailTheme with
      | some _ => args.emailTheme
      | none => currentRealm.emailTheme
    smtpServer :=
      match args.smtpServer with
      | some smtp => some (convertSmtpConfig smtp)
      | none => currentRealm.smtpServer }

/-- The minimal creation shell built by `Create` when the realm does not
yet exist (realm.go lines 186-199): name, enabled (defaulting to `true`
when absent from the inputs) and, when present, the display name. -/
def minimalRealmShell (inputs : RealmArgs) : RealmRepresentation :=
  let enabled := match inputs.enabled with
    | some e => e
    | none => true
  let minimalRealm :=
    { emptyRealmRepresentation with realm := some inputs.name, enabled := some enabled }
  match inputs.displayName with
  | some _ => { minimalRealm with displayName := inputs.displayName }
  | none => minimalRealm

/-- The projection inside `readRealmState` (realm.go lines 390-428) from a
fetched snapshot to reported state.  The Go code dereferences
`*realm.Realm` unconditionally; a snapshot with `Realm == nil` therefore
panics, modelled as `none`. -/
def readRealmStateProj (realm : RealmRepresentation) : Option RealmState :=
  match realm.realm with
  | none => none
  | some realmName =>
    -- the Go code copies each managed attribute onto a zero-valued state
    -- under an `if realm.X != nil` guard, i.e. it copies the optional value
    some
      { id := realmName
        name := realmName
        enabled := realm.enabled
        displayName := realm.displayName
        displayNameHtml := realm.displayNameHTML
        loginTheme := realm.loginTheme
        accountTheme := realm.accountTheme
        adminTheme := realm.adminTheme
        emailTheme := realm.emailTheme
        smtpServer :=
          match realm.smtpServer with
          | some m => convertFromKeycloakSmtp m
          | none => none }

/-- Go errors are matched only through `err.Error()` strings, so an error
is modelled by its message. -/
abbrev GoError := String

/-- The admin token returned by `LoginAdmin`. -/
structure JWT where
  accessToken : String
  deriving DecidableEq

/-- One remote admin-API call, as issued by the provider. -/
inductive RemoteCall where
  | loginAdmin
  | getRealm (name : String)
  | createRealm (name : String)
  | updateRealm (name : String)
  | deleteRealm (name : String)
  deriving DecidableEq

/-- A write call mutates remote state; logins and fetches do not. -/
def RemoteCall.isWrite : RemoteCall → Bool
  | .createRealm _ => true
  | .updateRealm _ => true
  | .deleteRealm _ => true
  | _ => false

/-- Outcome of a lifecycle operation: Go `(value, nil)`, Go
`(zero, err)`, or a runtime panic. -/
inductive OpResult (α : Type) where
  | ok (a : α)
  | err (e : GoError)
  | panicked
  deriving DecidableEq

/-- Oracle model of the gocloak client: each endpoint's response is fixed
by the environment (the provider holds no state of its own; claims about
control flow and dry runs are insensitive to remote state evolution). -/
structure RemoteEnv where
  loginResult : Except GoError JWT
  getRealmResult : String → Except GoError RealmRepresentation
  createRealmResult : RealmRepresentation → Except GoError String
  updateRealmResult : RealmRepresentation → Except GoError Unit
  deleteRealmResult : String → Except GoError Unit

/-- `realmExists` (realm.go lines 432-448): log in, fetch, and treat the
error messages `"404"` and `"realm not found"` as a negative result.
Returns the result together with the remote calls issued. -/
def realmExists (env : RemoteEnv) (realmName : String) :
    Except GoError Bool × List RemoteCall :=
  match env.loginResult with
  | .error e => (.error ("failed to authenticate: " ++ e), [.loginAdmin])
  | .ok _token =>
    match env.getRealmResult realmName with
    | .error e =>
        if e = "404" ∨ e = "realm not found" then
          (.ok false, [.loginAdmin, .getRealm realmName])
        else
          (.error e, [.loginAdmin, .getRealm realmName])
    | .ok _ => (.ok true, [.loginAdmin, .getRealm realmName])

/-- `updateManagedFields` (realm.go lines 331-381): fetch the current
realm, overlay the managed fields, and push the result. -/
def updateManagedFields (env : RemoteEnv) (_token : String) (args : RealmArgs) :
    Except GoError Unit × List RemoteCall :=
  match env.getRealmResult args.name with
  | .error e => (.error ("failed to get current realm: " ++ e), [.getRealm args.name])
  | .ok currentRealm =>
    let updateRealm := overlayManagedFields args currentRealm
    match env.updateRealmResult updateRealm with
    | .error e =>
        (.error ("failed to update realm: " ++ e),
         [.getRealm args.name, .updateRealm args.name])
    | .ok _ => (.ok (), [.getRealm args.name, .updateRealm args.name])

/-- `readRealmState` (realm.go lines 384-429): fetch and project; a
snapshot without a realm name makes the projection panic. -/
def readRealmState (env : RemoteEnv) (_token : String) (realmName : String) :
    OpResult RealmState × List RemoteCall :=
  match env.getRealmResult realmName with
  | .error e => (.err ("failed to get realm: " ++ e), [.getRealm realmName])
  | .ok realm =>
    match readRealmStateProj realm with
    | none => (.panicked, [.getRealm realmName])
    | some state => (.ok state, [.getRealm realmName])

/-- `Realm.Create` (realm.go lines 151-223): authenticate, check
existence, short-circuit on a dry run with the inputs echoed, otherwise
create the minimal shell when absent, overlay the managed fields, and
read back the state.  The returned identifier is the input name. -/
def RealmCreate (env : RemoteEnv) (inputs : RealmArgs) (dryRun : Bool) :
    OpResult (String × RealmState) × List RemoteCall :=
  match env.loginResult with
  | .error e => (.err ("failed to authenticate: " ++ e), [.loginAdmin])
  | .ok token =>
    let check := realmExists env inputs.name
    match check.1 with
    | .error e => (.err ("failed to check if realm exists: " ++ e), .loginAdmin :: check.2)
    | .ok ex =>
      if dryRun then
        (.ok (inputs.name,
          { id := inputs.name, name := inputs.name, enabled := inputs.enabled,
            displayName := inputs.displayName, displayNameHtml := inputs.displayNameHtml,
            loginTheme := inputs.loginTheme, accountTheme := inputs.accountTheme,
            adminTheme := inputs.adminTheme, emailTheme := inputs.emailTheme,
            smtpServer := inputs.smtpServer }),
         .loginAdmin :: check.2)
      else
        let afterCreate : Except GoError Unit × List RemoteCall :=
          if ex then (.ok (), [])
          else
            match env.createRealmResult (minimalRealmShell inputs) with
            | .error e => (.error ("failed to create realm: " ++ e), [.createRealm inputs.name])
            | .ok _ => (.ok (), [.createRealm inputs.name])
        match afterCreate.1 with
        | .error e => (.err e, .loginAdmin :: check.2 ++ afterCreate.2)
        | .ok _ =>
          let upd := updateManagedFields env token.accessToken inputs
          match upd.1 with
          | .error e =>
              (.err ("failed to update managed fields: " ++ e),
               .loginAdmin :: check.2 ++ afterCreate.2 ++ upd.2)
          | .ok _ =>
            let rd := readRealmState env token.accessToken inputs.name
            match rd.1 with
            | .err e =>
                (.err ("failed to read realm state: " ++ e),
                 .loginAdmin :: check.2 ++ afterCreate.2 ++ upd.2 ++ rd.2)
            | .panicked =>
                (.panicked, .loginAdmin :: check.2 ++ afterCreate.2 ++ upd.2 ++ rd.2)
            | .ok state =>
                (.ok (inputs.name, state),
                 .loginAdmin :: check.2 ++ afterCreate.2 ++ upd.2 ++ rd.2)

/-- `Realm.Delete` (realm.go lines 271-293): authenticate, delete; on a
delete failure re-check existence and succeed when the realm is already
gone, otherwise propagate the original delete error. -/
def RealmDelete (env : RemoteEnv) (state : RealmState) :
    Except GoError Unit × List RemoteCall :=
  match env.loginResult with
  | .error e => (.error ("failed to authenticate: " ++ e), [.loginAdmin])
  | .ok _token =>
    match env.deleteRealmResult state.name with
    | .ok _ => (.ok (), [.loginAdmin, .deleteRealm state.name])
    | .error e =>
      let check := realmExists env state.name
      match check.1 with
      | .ok ex =>
          if !ex then
            (.ok (), [.loginAdmin, .deleteRealm state.name] ++ check.2)
          else
            (.error ("failed to delete realm: " ++ e),
             [.loginAdmin, .deleteRealm state.name] ++ check.2)
      | .error _ =>
          (.error ("failed to delete realm: " ++ e),
           [.loginAdmin, .deleteRealm state.name] ++ check.2)

/-- A populated remote snapshot of the realm "acme" with unmanaged
attributes set; oracle data for the concrete scenarios below. -/
def sampleRealmRep : RealmRepresentation :=
  { realm := some "acme", enabled := some true, displayName := some "ACME",
    displayNameHTML := none, loginTheme := some "base", accountTheme := none,
    adminTheme := none, emailTheme := none, smtpServer := none,
    sslRequired := some "external", registrationAllowed := some false,
    accessTokenLifespan := some 300, passwordPolicy := some "length(12)",
    otherAttributes := [("bruteForceProtected", "true")] }

/-- Desired inputs naming the realm "acme" with every optional field absent. -/
def argsAcme : RealmArgs :=
  { name := "acme", enabled := none, displayName := none, displayNameHtml := none,
    loginTheme := none, accountTheme := none, adminTheme := none, emailTheme := none,
    smtpServer := none }

/-- A successful admin login token. -/
def tokenOk : JWT := { accessToken := "token" }

/-- Healthy oracle: login succeeds, every fetch returns the "acme"
snapshot, all writes succeed. -/
def envHealthy : RemoteEnv :=
  { loginResult := .ok tokenOk,
    getRealmResult := fun _ => .ok sampleRealmRep,
    createRealmResult := fun _ => .ok "created",
    updateRealmResult := fun _ => .ok (),
    deleteRealmResult := fun _ => .ok () }

/-- Oracle where deletion fails but the realm is already gone: the fetch
answers the not-found message "404". -/
def envDeleteGone : RemoteEnv :=
  { envHealthy with
    getRealmResult := fun _ => .error "404",
    deleteRealmResult := fun _ => .error "500 internal" }

/-- Oracle where deletion fails while the realm still exists. -/
def envDeleteAlive : RemoteEnv :=
  { envHealthy with deleteRealmResult := fun _ => .error "500 internal" }

/-- Oracle where deletion fails and the existence check itself errors. -/
def envDeleteCheckErr : RemoteEnv :=
  { envHealthy with
    getRealmResult := fun _ => .error "503 unavailable",
    deleteRealmResult := fun _ => .error "500 internal" }

/-- Prior reported state for the realm "acme". -/
def stateAcme : RealmState :=
  { id := "acme", name := "acme", enabled := some true, displayName := none,
    displayNameHtml := none, loginTheme := none, accountTheme := none,
    adminTheme := none, emailTheme := none, smtpServer := none }

/-- A fully populated SMTP config whose port is negative. -/
def cfgNegPort : SmtpServerConfig :=
  { host := some "smtp.example.com", port := some (-1),
    «from» := some "noreply@example.com", fromName := some "Acme",
    startTls := some true, auth := some true,
    username := some "mailer", password := some "hunter2" }

/-- A snapshot whose realm-name attribute is absent. -/
def repNoName : RealmRepresentation :=
  { emptyRealmRepresentation with enabled := some true }

/-- The plain (unwrapped) decimal value of a digit string, accumulated
exactly as `parseInt`'s loop does but in unbounded integers. -/
def decimalValue (cs : List Char) : Int :=
  cs.foldl (fun a c => a * 10 + ((c.toNat - '0'.toNat : Nat) : Int)) 0

lemma StrMap.find?_append_of_none (m1 m2 : StrMap) (k : String)
    (h : StrMap.find? m1 k = none) :
    StrMap.find? (m1 ++ m2) k = StrMap.find? m2 k := by
  induction m1 with
  | nil => rfl
  | cons hd tl ih =>
    obtain ⟨k1, v1⟩ := hd
    by_cases hk : k1 = k
    · simp [StrMap.find?, hk] at h
    · simp only [StrMap.find?, hk, if_false, List.cons_append] at h ⊢
      exact ih h

lemma StrMap.find?_map_overwrite_self (m : StrMap) (k v : String)
    (h : (StrMap.find? m k).isSome) :
    StrMap.find? (m.map (fun p => if p.1 = k then (k, v) else p)) k = some v := by
  induction m with
  | nil => simp [StrMap.find?] at h
  | cons hd tl ih =>
    obtain ⟨k1, v1⟩ := hd
    by_cases hk : k1 = k
    · subst hk
      simp only [List.map_cons, if_true, eq_self_iff_true]
      simp [StrMap.find?]
    · simp only [List.map_cons, if_neg hk]
      simp only [StrMap.find?, hk, if_false] at h ⊢
      exact ih h

lemma StrMap.find?_map_overwrite_ne (m : StrMap) (k v k' : String) (h : ¬k = k') :
    StrMap.find? (m.map (fun p => if p.1 = k then (k, v) else p)) k' =
      StrMap.find? m k' := by
  induction m with
  | nil => rfl
  | cons hd tl ih =>
    obtain ⟨k1, v1⟩ := hd
    by_cases hk : k1 = k
    · subst hk
      simp only [List.map_cons, if_pos rfl]
      simp only [StrMap.find?, if_neg h]
      exact ih
    · simp only [List.map_cons, if_neg hk]
      simp only [StrMap.find?]
      by_cases hk' : k1 = k'
      · simp [hk']
      · simp only [hk', if_false]
        exact ih

lemma StrMap.find?_insert_self (m : StrMap) (k v : String) :
    StrMap.find? (StrMap.insert m k v) k = some v := by
  unfold StrMap.insert
  by_cases h : (StrMap.find? m k).isSome
  · rw [if_pos h]
    exact StrMap.find?_map_overwrite_self m k v h
  · rw [if_neg h]
    have hn : StrMap.find? m k = none := by
      cases hfind : StrMap.find? m k
      · rfl
      · rw [hfind] at h; simp at h
    rw [StrMap.find?_append_of_none _ _ _ hn]
    simp [StrMap.find?]

lemma StrMap.find?_insert_ne (m : StrMap) (k v k' : String) (h : ¬k = k') :
    StrMap.find? (StrMap.insert m k v) k' = StrMap.find? m k' := by
  unfold StrMap.insert
  by_cases hs : (StrMap.find? m k).isSome
  · rw [if_pos hs]
    exact StrMap.find?_map_overwrite_ne m k v k' h
  · rw [if_neg hs]
    cases hfind : StrMap.find? m k' with
    | none =>
      rw [StrMap.find?_append_of_none _ _ _ hfind]
      simp [StrMap.find?, h]
    | some w =>
      rw [← hfind]
      clear hfind hs
      induction m with
      | nil => simp [StrMap.find?, h]
      | cons hd tl ih =>
        obtain ⟨k1, v1⟩ := hd
        simp only [List.cons_append, StrMap.find?]
        by_cases hk : k1 = k'
        · simp [hk]
        · simp only [hk, if_false]
          exact ih

lemma StrMap.insert_ne_nil (m : StrMap) (k v : String) :
    StrMap.insert m k v ≠ [] := by
  unfold StrMap.insert
  by_cases h : (StrMap.find? m k).isSome
  · rw [if_pos h]
    cases m with
    | nil => simp [StrMap.find?] at h
    | cons hd tl => simp
  · rw [if_neg h]
    simp

lemma putIfPresent_find_ne {α : Type} (m : StrMap) (key : String) (render : α → String)
    (o : Option α) (k' : String) (h : ¬key = k') :
    StrMap.find? (putIfPresent m key render o) k' = StrMap.find? m k' := by
  cases o with
  | none => rfl
  | some v => exact StrMap.find?_insert_ne m key (render v) k' h

lemma putIfPresent_find_self {α : Type} (m : StrMap) (key : String) (render : α → String)
    (o : Option α) (h : StrMap.find? m key = none) :
    StrMap.find? (putIfPresent m key render o) key = o.map render := by
  cases o with
  | none => exact h
  | some v => exact StrMap.find?_insert_self m key (render v)

lemma putIfPresent_ne_nil {α : Type} (m : StrMap) (key : String) (render : α → String)
    (o : Option α) (h : m ≠ []) :
    putIfPresent m key render o ≠ [] := by
  cases o with
  | none => exact h
  | some v => exact StrMap.insert_ne_nil m key (render v)

lemma convertSmtpConfig_find_host (s : SmtpServerConfig) :
    StrMap.find? (convertSmtpConfig s) "host" = s.host := by
  obtain ⟨sh, sp, sf, sfn, st, sa, su, spw⟩ := s
  unfold convertSmtpConfig
  rcases sa with _ | (_ | _) <;>
    simp [putIfPresent_find_ne, putIfPresent_find_self, StrMap.find?_insert_ne,
          StrMap.find?_insert_self, StrMap.find?]

lemma convertSmtpConfig_find_port (s : SmtpServerConfig) :
    StrMap.find? (convertSmtpConfig s) "port" =
      Option.map (fun p => sprintfInt p) s.port := by
  obtain ⟨sh, sp, sf, sfn, st, sa, su, spw⟩ := s
  unfold convertSmtpConfig
  rcases sa with _ | (_ | _) <;>
    simp [putIfPresent_find_ne, putIfPresent_find_self, StrMap.find?_insert_ne,
          StrMap.find?_insert_self, StrMap.find?]

lemma convertSmtpConfig_find_from (s : SmtpServerConfig) :
    StrMap.find? (convertSmtpConfig s) "from" = s.«from» := by
  obtain ⟨sh, sp, sf, sfn, st, sa, su, spw⟩ := s
  unfold convertSmtpConfig
  rcases sa with _ | (_ | _) <;>
    simp [putIfPresent_find_ne, putIfPresent_find_self, StrMap.find?_insert_ne,
          StrMap.find?_insert_self, StrMap.find?]

lemma convertSmtpConfig_find_fromDisplayName (s : SmtpServerConfig) :
    StrMap.find? (convertSmtpConfig s) "fromDisplayName" = s.fromName := by
  obtain ⟨sh, sp, sf, sfn, st, sa, su, spw⟩ := s
  unfold convertSmtpConfig
  rcases sa with _ | (_ | _) <;>
    simp [putIfPresent_find_ne, putIfPresent_find_self, StrMap.find?_insert_ne,
          StrMap.find?_insert_self, StrMap.find?]

lemma convertSmtpConfig_find_starttls (s : SmtpServerConfig) :
    StrMap.find? (convertSmtpConfig s) "starttls" =
      Option.map (fun t => if t then "true" else "false") s.startTls := by
  obtain ⟨sh, sp, sf, sfn, st, sa, su, spw⟩ := s
  unfold convertSmtpConfig
  rcases sa with _ | (_ | _) <;>
    simp [putIfPresent_find_ne, putIfPresent_find_self, StrMap.find?_insert_ne,
          StrMap.find?_insert_self, StrMap.find?]

lemma convertSmtpConfig_find_auth (s : SmtpServerConfig) :
    StrMap.find? (convertSmtpConfig s) "auth" =
      some (match s.auth with | some true => "true" | _ => "false") := by
  obtain ⟨sh, sp, sf, sfn, st, sa, su, spw⟩ := s
  unfold convertSmtpConfig
  rcases sa with _ | (_ | _) <;>
    simp [putIfPresent_find_ne, putIfPresent_find_self, StrMap.find?_insert_ne,
          StrMap.find?_insert_self, StrMap.find?]

lemma convertSmtpConfig_find_user (s : SmtpServerConfig) :
    StrMap.find? (convertSmtpConfig s) "user" =
      match s.auth with | some true => s.username | _ => none := by
  obtain ⟨sh, sp, sf, sfn, st, sa, su, spw⟩ := s
  unfold convertSmtpConfig
  rcases sa with _ | (_ | _) <;>
    simp [putIfPresent_find_ne, putIfPresent_find_self, StrMap.find?_insert_ne,
          StrMap.find?_insert_self, StrMap.find?]

lemma convertSmtpConfig_find_password (s : SmtpServerConfig) :
    StrMap.find? (convertSmtpConfig s) "password" =
      match s.auth with | some true => s.password | _ => none := by
  obtain ⟨sh, sp, sf, sfn, st, sa, su, spw⟩ := s
  unfold convertSmtpConfig
  rcases sa with _ | (_ | _) <;>
    simp [putIfPresent_find_ne, putIfPresent_find_self, StrMap.find?_insert_ne,
          StrMap.find?_insert_self, StrMap.find?]

lemma convertSmtpConfig_ne_nil (s : SmtpServerConfig) :
    convertSmtpConfig s ≠ [] := by
  obtain ⟨sh, sp, sf, sfn, st, sa, su, spw⟩ := s
  unfold convertSmtpConfig
  rcases sa with _ | (_ | _)
  · exact StrMap.insert_ne_nil _ _ _
  · exact StrMap.insert_ne_nil _ _ _
  · exact putIfPresent_ne_nil _ _ _ _
      (putIfPresent_ne_nil _ _ _ _ (StrMap.insert_ne_nil _ _ _))

lemma int64Wrap_congr {a b : Int} (h : a % 2^64 = b % 2^64) :
    int64Wrap a = int64Wrap b := by
  unfold int64Wrap; omega

lemma int64Wrap_emod (a : Int) : int64Wrap a % 2^64 = a % 2^64 := by
  unfold int64Wrap; omega

lemma int64Wrap_eq_self {n : Int} (h1 : -(2^63) ≤ n) (h2 : n < 2^63) :
    int64Wrap n = n := by
  unfold int64Wrap; omega

lemma int64Wrap_step (a d : Int) :
    int64Wrap (int64Wrap a * 10 + d) = int64Wrap (a * 10 + d) := by
  apply int64Wrap_congr
  have h := int64Wrap_emod a
  omega

/-- Stepping the parse loop from a wrapped accumulator computes the wrap
of the unbounded accumulation, as long as every character is a digit. -/
lemma parseIntLoop_wrap (cs : List Char) (a : Int)
    (h : ∀ c ∈ cs, ¬(c < '0' ∨ c > '9')) :
    parseIntLoop cs (int64Wrap a) =
      some (int64Wrap (cs.foldl (fun x c => x * 10 + ((c.toNat - '0'.toNat : Nat) : Int)) a)) := by
  induction cs generalizing a with
  | nil => rfl
  | cons c rest ih =>
    have hc : ¬(c < '0' ∨ c > '9') := h c (List.mem_cons_self c rest)
    have hrest : ∀ x ∈ rest, ¬(x < '0' ∨ x > '9') := fun x hx => h x (List.mem_cons_of_mem c hx)
    simp only [parseIntLoop, if_neg hc, List.foldl_cons]
    rw [int64Wrap_step]
    exact ih _ hrest

lemma digitChar_toNat {m : Nat} (h : m < 10) :
    (Char.ofNat (m + 48)).toNat - '0'.toNat = m := by
  interval_cases m <;> decide

lemma digitChar_isDigit {m : Nat} (h : m < 10) :
    ¬(Char.ofNat (m + 48) < '0' ∨ Char.ofNat (m + 48) > '9') := by
  interval_cases m <;> decide

lemma decimalDigits_ne_nil (n : Nat) : decimalDigits n ≠ [] := by
  unfold decimalDigits
  split <;> simp

lemma decimalDigits_all_digits (n : Nat) :
    ∀ c ∈ decimalDigits n, ¬(c < '0' ∨ c > '9') := by
  induction n using decimalDigits.induct with
  | case1 n h =>
    unfold decimalDigits
    rw [dif_pos h]
    intro c hc
    simp only [List.mem_singleton] at hc
    subst hc
    exact digitChar_isDigit (Nat.mod_lt _ (by omega))
  | case2 n h ih =>
    unfold decimalDigits
    rw [dif_neg h]
    intro c hc
    rcases List.mem_append.mp hc with h1 | h2
    · exact ih c h1
    · simp only [List.mem_singleton] at h2
      subst h2
      exact digitChar_isDigit (Nat.mod_lt _ (by omega))

lemma decimalDigits_value (n : Nat) :
    decimalValue (decimalDigits n) = (n : Int) := by
  induction n using decimalDigits.induct with
  | case1 n h =>
    unfold decimalDigits
    rw [dif_pos h]
    unfold decimalValue
    simp only [List.foldl_cons, List.foldl_nil]
    rw [digitChar_toNat (Nat.mod_lt _ (by omega))]
    have : n % 10 = n := Nat.mod_eq_of_lt h
    omega
  | case2 n h ih =>
    unfold decimalDigits
    rw [dif_neg h]
    unfold decimalValue at ih ⊢
    rw [List.foldl_append]
    simp only [List.foldl_cons, List.foldl_nil]
    rw [ih, digitChar_toNat (Nat.mod_lt _ (by omega))]
    have := Nat.div_add_mod n 10
    omega

/-- Round trip through the Go decimal printer and `parseInt`, exact on
the nonnegative half of the 64-bit range. -/
lemma parseInt_sprintfInt {p : Int} (h0 : 0 ≤ p) (h1 : p < 2^63) :
    parseInt (sprintfInt p) = some p := by
  unfold sprintfInt
  rw [if_neg (by omega)]
  unfold parseInt
  rw [if_neg (by simp [String.ext_iff, decimalDigits_ne_nil])]
  show parseIntLoop (decimalDigits p.toNat) 0 = some p
  have h00 : (0 : Int) = int64Wrap 0 := by unfold int64Wrap; omega
  rw [h00, parseIntLoop_wrap _ _ (decimalDigits_all_digits _)]
  have hv := decimalDigits_value p.toNat
  unfold decimalValue at hv
  rw [hv]
  have hp : (p.toNat : Int) = p := Int.toNat_of_nonneg h0
  rw [hp, int64Wrap_eq_self (by omega) h1]


set_option maxRecDepth 8000

/-- C1: the overlay operation preserves unmanaged fields — for every
remote snapshot and every desired `RealmArgs`, every attribute of the
snapshot outside the managed set (the realm name, the representative
unmanaged attributes and the open-ended remainder bag) is equal in the
update payload to its value in the fetched snapshot. -/
theorem overlay_preserves_unmanaged_fields (args : RealmArgs)
    (currentRealm : RealmRepresentation) :
    (overlayManagedFields args currentRealm).realm = currentRealm.realm ∧
    (overlayManagedFields args currentRealm).sslRequired = currentRealm.sslRequired ∧
    (overlayManagedFields args currentRealm).registrationAllowed =
      currentRealm.registrationAllowed ∧
    (overlayManagedFields args currentRealm).accessTokenLifespan =
      currentRealm.accessTokenLifespan ∧
    (overlayManagedFields args currentRealm).passwordPolicy =
      currentRealm.passwordPolicy ∧
    (overlayManagedFields args currentRealm).otherAttributes =
      currentRealm.otherAttributes :=
  ⟨rfl, rfl, rfl, rfl, rfl, rfl⟩

/-- C2: for every managed field, a desired input in which that field is
absent leaves the corresponding attribute of the update payload equal to
the remote snapshot's existing value — it is never overwritten and never
cleared. -/
theorem overlay_absent_managed_field_noop (args : RealmArgs)
    (currentRealm : RealmRepresentation) :
    (overlayManagedFields { args with enabled := none } currentRealm).enabled =
      currentRealm.enabled ∧
    (overlayManagedFields { args with displayName := none } currentRealm).displayName =
      currentRealm.displayName ∧
    (overlayManagedFields { args with displayNameHtml := none } currentRealm).displayNameHTML =
      currentRealm.displayNameHTML ∧
    (overlayManagedFields { args with loginTheme := none } currentRealm).loginTheme =
      currentRealm.loginTheme ∧
    (overlayManagedFields { args with accountTheme := none } currentRealm).accountTheme =
      currentRealm.accountTheme ∧
    (overlayManagedFields { args with adminTheme := none } currentRealm).adminTheme =
      currentRealm.adminTheme ∧
    (overlayManagedFields { args with emailTheme := none } currentRealm).emailTheme =
      currentRealm.emailTheme ∧
    (overlayManagedFields { args with smtpServer := none } currentRealm).smtpServer =
      currentRealm.smtpServer :=
  ⟨rfl, rfl, rfl, rfl, rfl, rfl, rfl, rfl⟩

/-- C5: the `enabled` flag has different absence semantics at creation
and update — the minimal creation shell defaults an absent `enabled` to
`true`, while the update overlay leaves the remote value unchanged when
`enabled` is absent. -/
theorem enabled_default_create_vs_update (inputs args : RealmArgs)
    (currentRealm : RealmRepresentation) :
    (minimalRealmShell { inputs with enabled := none }).enabled = some true ∧
    (overlayManagedFields { args with enabled := none } currentRealm).enabled =
      currentRealm.enabled := by
  constructor
  · obtain ⟨n, e, d, dh, lt, ac, ad, et, sm⟩ := inputs
    cases d <;> rfl
  · exact rfl

/-- The parse loop fails as soon as any character of the remaining input
is a non-digit. -/
lemma parseIntLoop_none_of_nonDigit (cs : List Char) (a : Int)
    (h : ∃ c ∈ cs, c < '0' ∨ c > '9') :
    parseIntLoop cs a = none := by
  induction cs generalizing a with
  | nil => simp at h
  | cons c rest ih =>
    obtain ⟨d, hd, hnd⟩ := h
    by_cases hc : c < '0' ∨ c > '9'
    · simp [parseIntLoop, hc]
    · simp only [parseIntLoop, if_neg hc]
      apply ih
      rcases List.mem_cons.mp hd with rfl | hmem
      · exact absurd hnd hc
      · exact ⟨d, hmem, hnd⟩

/-- C7: `parseInt` decodes the digit string "587" to 587; every string
containing a non-digit character decodes to absent rather than an error;
and decoding an SMTP map whose port entry is "abc" yields a config whose
port field is simply absent. -/
theorem parseInt_port_decoding_examples :
    parseInt "587" = some 587 ∧
    (∀ s : String, (∃ c ∈ s.data, c < '0' ∨ c > '9') → parseInt s = none) ∧
    (convertFromKeycloakSmtp [("host", "mail"), ("port", "abc"), ("auth", "false")]).map
      SmtpServerConfig.port = some none := by
  refine ⟨by decide, ?_, by decide⟩
  intro s h
  unfold parseInt
  by_cases he : s = ""
  · rw [if_pos he]
  · rw [if_neg he]
    exact parseIntLoop_none_of_nonDigit s.data 0 h

/-- Witness for C7's universal part at the concrete string "abc". -/
theorem parseInt_port_decoding_examples_witness :
    parseInt "abc" = none :=
  parseInt_port_decoding_examples.2.1 "abc" (by decide)

/-- C8: `readRealmState`'s projection dereferences the fetched realm's
name pointer unconditionally — it panics (models as `none`) on every
snapshot whose realm name is absent, and is total exactly under the
precondition that the name is present, in which case the reported id and
name both equal it. -/
theorem readRealmState_requires_realm_name (realm : RealmRepresentation) :
    (realm.realm = none → readRealmStateProj realm = none) ∧
    (∀ n : String, realm.realm = some n →
      ∃ st, readRealmStateProj realm = some st ∧ st.id = n ∧ st.name = n) := by
  constructor
  · intro h
    unfold readRealmStateProj
    rw [h]
  · intro n h
    unfold readRealmStateProj
    rw [h]
    exact ⟨_, rfl, rfl, rfl⟩

/-- Witness for C8 at concrete snapshots: the nameless snapshot panics,
the "acme" snapshot projects with id and name "acme". -/
theorem readRealmState_requires_realm_name_witness :
    readRealmStateProj repNoName = none ∧
    (∃ st, readRealmStateProj sampleRealmRep = some st ∧
      st.id = "acme" ∧ st.name = "acme") :=
  ⟨(readRealmState_requires_realm_name repNoName).1 rfl,
   (readRealmState_requires_realm_name sampleRealmRep).2 "acme" rfl⟩

/-- C9: `parseInt` has no overflow check — on every nonempty all-digit
string it returns the accumulated `result*10 + digit` value under 64-bit
two's-complement wraparound (so an overflowing digit string yields a
wrapped, possibly negative, integer rather than absent), and the empty
string decodes to absent. -/
theorem parseInt_wraparound_totality (s : String)
    (hne : s ≠ "")
    (hdig : ∀ c ∈ s.data, ¬(c < '0' ∨ c > '9')) :
    parseInt s = some (int64Wrap (decimalValue s.data)) ∧ parseInt "" = none := by
  constructor
  · unfold parseInt
    rw [if_neg hne]
    have h0 : (0 : Int) = int64Wrap 0 := by unfold int64Wrap; omega
    rw [h0, parseIntLoop_wrap _ _ hdig]
    rfl
  · rfl

/-- Witness for C9: the digit string for 2^63 wraps to the most negative
64-bit integer instead of decoding to absent. -/
theorem parseInt_wraparound_totality_witness :
    parseInt "9223372036854775808" = some (-9223372036854775808) ∧
    parseInt "" = none := by
  have h := parseInt_wraparound_totality "9223372036854775808" (by decide) (by decide)
  refine ⟨?_, h.2⟩
  rw [h.1]
  decide

/-- C10: `convertSmtpConfig` always emits an "auth" entry — "true"
exactly when the auth flag is present and true, otherwise "false" — so
the encoded map is never empty, decoding it always yields a config with
`auth` present, and an absent auth flag does not survive the round trip
as absent. -/
theorem convertSmtpConfig_auth_always_present (s : SmtpServerConfig) :
    convertSmtpConfig s ≠ [] ∧
    StrMap.find? (convertSmtpConfig s) "auth" =
      some (match s.auth with | some true => "true" | _ => "false") ∧
    (match convertFromKeycloakSmtp (convertSmtpConfig s) with
     | some t => t.auth = some (match s.auth with | some true => true | _ => false)
     | none => False) := by
  refine ⟨convertSmtpConfig_ne_nil s, convertSmtpConfig_find_auth s, ?_⟩
  have hne : ¬(convertSmtpConfig s).length = 0 := by
    simpa [List.length_eq_zero] using convertSmtpConfig_ne_nil s
  unfold convertFromKeycloakSmtp
  rw [if_neg hne]
  simp only [convertSmtpConfig_find_auth]
  rcases ha : s.auth with _ | (_ | _) <;> simp [ha]

/-- The existence check only logs in and fetches; it never issues a
write call. -/
lemma realmExists_no_writes (env : RemoteEnv) (name : String) :
    (realmExists env name).2.all (fun c => !c.isWrite) = true := by
  unfold realmExists
  rcases hl : env.loginResult with e | tok
  · simp [hl, RemoteCall.isWrite]
  · rcases hg : env.getRealmResult name with e | r
    · simp only [hl, hg]
      split <;> simp [RemoteCall.isWrite]
    · simp [hl, hg, RemoteCall.isWrite]

/-- C3 counterexample: a dry-run Create against a healthy oracle issues
remote calls — two logins and one fetch — so "performs no remote calls
(no login, no fetch)" fails as stated. -/
theorem create_dryRun_counterexample :
    (RealmCreate envHealthy argsAcme true).2 ≠ [] ∧
    (RealmCreate envHealthy argsAcme true).2 =
      [RemoteCall.loginAdmin, RemoteCall.loginAdmin, RemoteCall.getRealm "acme"] := by
  constructor <;> decide

/-- C3 amended: a dry-run Create issues no write call (no create, update
or delete against the admin API), never panics, and whenever it returns
successfully — i.e. login and the existence fetch succeeded — its
identifier is the desired name and its reported state echoes the literal
desired input. -/
theorem create_dryRun_no_writes_echoes_inputs (env : RemoteEnv) (inputs : RealmArgs) :
    (RealmCreate env inputs true).2.all (fun c => !c.isWrite) = true ∧
    (match (RealmCreate env inputs true).1 with
     | .ok r =>
        r.1 = inputs.name ∧
        r.2 = { id := inputs.name, name := inputs.name, enabled := inputs.enabled,
                displayName := inputs.displayName, displayNameHtml := inputs.displayNameHtml,
                loginTheme := inputs.loginTheme, accountTheme := inputs.accountTheme,
                adminTheme := inputs.adminTheme, emailTheme := inputs.emailTheme,
                smtpServer := inputs.smtpServer }
     | .err _ => True
     | .panicked => False) := by
  have hw := realmExists_no_writes env inputs.name
  simp only [List.all_eq_true] at hw
  unfold RealmCreate
  rcases hl : env.loginResult with e | tok
  · simp [hl, RemoteCall.isWrite]
  · rcases hc : (realmExists env inputs.name).1 with e | ex
    · simp [hl, hc, RemoteCall.isWrite]
      intro x hx
      have := hw x hx
      simpa [RemoteCall.isWrite] using this
    · simp [hl, hc, RemoteCall.isWrite]
      intro x hx
      have := hw x hx
      simpa [RemoteCall.isWrite] using this

/-- C6: Delete is idempotent with respect to an already-absent realm —
when the remote delete call fails, a subsequent existence check reporting
the realm absent turns the failure into success, while a still-existing
realm or a failing check propagates the original deletion failure. -/
theorem delete_idempotent_when_absent (env : RemoteEnv) (st : RealmState)
    (tok : JWT) (e : GoError)
    (hl : env.loginResult = .ok tok)
    (hd : env.deleteRealmResult st.name = .error e) :
    ((realmExists env st.name).1 = .ok false → (RealmDelete env st).1 = .ok ()) ∧
    ((realmExists env st.name).1 = .ok true →
      (RealmDelete env st).1 = .error ("failed to delete realm: " ++ e)) ∧
    (∀ ce, (realmExists env st.name).1 = .error ce →
      (RealmDelete env st).1 = .error ("failed to delete realm: " ++ e)) := by
  unfold RealmDelete
  refine ⟨?_, ?_, ?_⟩
  · intro h
    simp [hl, hd, h]
  · intro h
    simp [hl, hd, h]
  · intro ce h
    simp [hl, hd, h]

/-- Witness for C6 at concrete oracles: delete failure with the realm
gone succeeds; delete failure with the realm alive, or with a failing
existence check, propagates the wrapped delete error. -/
theorem delete_idempotent_when_absent_witness :
    (RealmDelete envDeleteGone stateAcme).1 = Except.ok () ∧
    (RealmDelete envDeleteAlive stateAcme).1 =
      Except.error ("failed to delete realm: " ++ "500 internal") ∧
    (RealmDelete envDeleteCheckErr stateAcme).1 =
      Except.error ("failed to delete realm: " ++ "500 internal") :=
  ⟨(delete_idempotent_when_absent envDeleteGone stateAcme tokenOk "500 internal"
      rfl rfl).1 rfl,
   (delete_idempotent_when_absent envDeleteAlive stateAcme tokenOk "500 internal"
      rfl rfl).2.1 rfl,
   (delete_idempotent_when_absent envDeleteCheckErr stateAcme tokenOk "500 internal"
      rfl rfl).2.2 "503 unavailable" rfl⟩

/-- C4 counterexample: the round trip as stated fails on a fully
populated config with the negative port -1 — the port encodes as "-1",
`parseInt` rejects the minus sign, and the decoded port is absent rather
than the original value. -/
theorem smtp_roundtrip_counterexample :
    cfgNegPort.port = some (-1) ∧
    cfgNegPort.auth = some true ∧
    (convertFromKeycloakSmtp (convertSmtpConfig cfgNegPort)).map SmtpServerConfig.port =
      some none := by
  refine ⟨rfl, rfl, ?_⟩
  simp [cfgNegPort, convertSmtpConfig, putIfPresent, StrMap.insert, StrMap.find?,
        sprintfInt, decimalDigits, convertFromKeycloakSmtp, parseInt, parseIntLoop]

/-- C4 amended: for every `SmtpServerConfig` whose port, when present,
lies in `[0, 2^63)`, decoding the encoding reproduces the original values
of all fields present in the source — host, port, from, fromName and
startTls exactly; auth decodes to true exactly when it was present and
true; username and password are retained exactly when auth was present
and true and are dropped (absent) otherwise. -/
theorem smtp_roundtrip_amended (s : SmtpServerConfig)
    (hp : ∀ p : Int, s.port = some p → 0 ≤ p ∧ p < 2^63) :
    convertFromKeycloakSmtp (convertSmtpConfig s) =
      some { host := s.host, port := s.port, «from» := s.«from», fromName := s.fromName,
             startTls := s.startTls,
             auth := some (match s.auth with | some true => true | _ => false),
             username := match s.auth with | some true => s.username | _ => none,
             password := match s.auth with | some true => s.password | _ => none } := by
  have hne : ¬(convertSmtpConfig s).length = 0 := by
    simpa [List.length_eq_zero] using convertSmtpConfig_ne_nil s
  unfold convertFromKeycloakSmtp
  rw [if_neg hne]
  simp only [convertSmtpConfig_find_host, convertSmtpConfig_find_port,
    convertSmtpConfig_find_from, convertSmtpConfig_find_fromDisplayName,
    convertSmtpConfig_find_starttls, convertSmtpConfig_find_auth,
    convertSmtpConfig_find_user, convertSmtpConfig_find_password]
  rcases hpo : s.port with _ | p
  · rcases ha : s.auth with _ | (_ | _) <;>
    rcases ht : s.startTls with _ | (_ | _) <;>
      simp [ha, ht, hpo]
  · obtain ⟨h0, h1⟩ := hp p hpo
    have hps := parseInt_sprintfInt h0 h1
    rcases ha : s.auth with _ | (_ | _) <;>
    rcases ht : s.startTls with _ | (_ | _) <;>
      simp [ha, ht, hpo, hps]

/-- Witness for the amended C4 at a fully populated config with port 587:
the round trip reproduces it exactly. -/
theorem smtp_roundtrip_amended_witness :
    convertFromKeycloakSmtp (convertSmtpConfig
      { host := some "mail.acme.io", port := some 587, «from» := some "noreply@acme.io",
        fromName := some "Acme", startTls := some true, auth := some true,
        username := some "mailer", password := some "hunter2" }) =
      some { host := some "mail.acme.io", port := some 587, «from» := some "noreply@acme.io",
             fromName := some "Acme", startTls := some true, auth := some true,
             username := some "mailer", password := some "hunter2" } := by
  have h := smtp_roundtrip_amended
    { host := some "mail.acme.io", port := some 587, «from» := some "noreply@acme.io",
      fromName := some "Acme", startTls := some true, auth := some true,
      username := some "mailer", password := some "hunter2" }
    (fun p hp => by
      injection hp with h2
      constructor <;> omega)
  exact h
